import Mathlib

set_option maxRecDepth 8192

/-!
# Verification of the TFTP server (`src/server.py`)

This file gives a shallow embedding of the server's transfer state machine
and packet handling, translated from `src/server.py`, and proves the frozen
claims about it.

Modelling conventions:

* Peers ("transfer IDs") are opaque; we use `Nat` for addresses and `String`
  for filenames.  File contents and packet payloads are byte lists
  (`List Nat`, each entry a byte value).
* Python integers are unbounded, so block numbers are `Int` (incoming block
  numbers are decoded with `struct.unpack('>h')` and may be negative).
* The two context tables `self.reads` / `self.writes` are partial maps
  `Nat → Option FileContext`; the filesystem is `String → Option (List Nat)`.
* A `threading.Event` ("timer") is identified by an allocation counter
  (`nextTimer`); the set of events that have been `.set()` is the predicate
  `signaled`.
* The retransmission loop `while not timer.wait(timeout): transmit(pkt)` is
  modelled by a parameter `misses`: the number of timeout intervals that
  elapse before the event is set.  The loop body runs once per miss, so a
  handler that arms a timer emits its packet `1 + misses` times (the write
  handler skips the loop entirely when `is_done`).
* `sys.exit()` inside a request-handling thread raises `SystemExit`, which
  kills only that thread: outcome `exited`.  `_handle_ERROR` sends through
  the module-level global name `sock`; when no such global is bound the
  lookup raises `NameError`: outcome `nameError`.  The flag `gsock` records
  whether the module-level `sock` is bound (it is, when the server is
  started from `__main__`).
* Sends over `self.sock` (method `_transmit`) are appended to `sent`; sends
  over the module-level global `sock` (only in `_handle_ERROR`) are appended
  to `errSent`.  Traces are oldest-first.
* Inbound datagrams are modelled post-decoding as `InPkt` (the dispatcher
  `_parse_pkt` unpacks the opcode, block number and payload with `struct`).
-/

/-- Modelled from the spec: `constants.py` is absent from `src/`; the spec
fixes `maxBlockSize` as a constant server block size, e.g. 512 bytes
(`MAX_BYTES` in the source). -/
def MAX_BYTES : Nat := 512

/-- Modelled from the spec: `constants.py` is absent; the spec states
`completionFlag = bytesWritten < maxBlockSize` for writes, so the write
completion threshold `MAX_BUFFER_WRQ` is modelled as `maxBlockSize`. -/
def MAX_BUFFER_WRQ : Nat := MAX_BYTES

/-- Modelled from the spec: opcode 1 (RRQ) from the wire-format table. -/
def RRQ_MODE : Int := 1
/-- Modelled from the spec: opcode 2 (WRQ). -/
def WRQ_MODE : Int := 2
/-- Modelled from the spec: opcode 3 (DATA). -/
def DATA_MODE : Int := 3
/-- Modelled from the spec: opcode 4 (ACK). -/
def ACK_MODE : Int := 4
/-- Modelled from the spec: opcode 5 (ERROR). -/
def ERROR_MODE : Int := 5

/-- Modelled from the spec: error code NOT_DEFINED (RFC1350 numbering). -/
def ERR_NOT_DEFINED : Int := 0
/-- Modelled from the spec: error code FILE_NOT_FOUND. -/
def ERR_FILE_NOT_FOUND : Int := 1
/-- Modelled from the spec: error code ILLEGAL_OPERATION. -/
def ERR_ILLEGAL_TFTP_OP : Int := 4
/-- Modelled from the spec: error code UNKNOWN_TRANSFER_ID. -/
def ERR_UNKNOWN_TID : Int := 5

/-- Big-endian 16-bit encoding of an integer, as two bytes
(`struct.pack('>h', n)`; values are reduced mod 2^16, two's complement). -/
def pack16 (n : Int) : List Nat :=
  [((n % 65536) / 256).toNat, (n % 65536 % 256).toNat]

/-- Byte encoding of a Python string (`str.encode()`), one entry per
character code. -/
def strBytes (s : String) : List Nat := s.data.map Char.toNat

/-- Structured form of the three packets the server transmits. -/
inductive OutMsg where
  | data (block : Int) (payload : List Nat)
  | ack (block : Int)
  | err (code : Int) (msg : String)
deriving DecidableEq

/-- Wire encoding of an outgoing packet, following `_DATA`, `_ACK` and
`_ERROR` in `server.py` (`_ERROR` appends the NUL from `msg+'\0'` and then
one more zero byte from the trailing `b` format). -/
def encodeMsg : OutMsg → List Nat
  | OutMsg.data b buf => pack16 DATA_MODE ++ pack16 b ++ buf
  | OutMsg.ack b => pack16 ACK_MODE ++ pack16 b
  | OutMsg.err c msg => pack16 ERROR_MODE ++ pack16 c ++ strBytes msg ++ [0] ++ [0]

/-- Per-transfer context, one per (direction, peer): class `FileContext`.
`is_done` is `none` when the constructor's default `is_done=None` is used
(as the write path does) and `some b` when a boolean is stored. -/
structure FileContext where
  filename : String
  block_num : Int
  timer : Nat
  is_done : Option Bool
deriving DecidableEq

/-- Python truthiness of the `is_done` field (`None` and `False` are falsy). -/
def truthy : Option Bool → Bool
  | some b => b
  | none => false

/-- Whole-server state: the two context tables, the filesystem, the set of
signalled timer events, the timer allocator, and the two send traces
(`sent` via `self.sock`, `errSent` via the module-level global `sock`).
`gsock` records whether the module-level name `sock` is bound. -/
structure ServerState where
  reads : Nat → Option FileContext
  writes : Nat → Option FileContext
  fs : String → Option (List Nat)
  signaled : Nat → Bool
  nextTimer : Nat
  sent : List (Nat × OutMsg)
  errSent : List (Nat × OutMsg)
  gsock : Bool

/-- Outcome of handling one inbound datagram in its own thread. -/
inductive Outcome where
  | ok
  | exited
  | nameError
deriving DecidableEq

/-- Pointwise update of a partial map. -/
def upd {α β : Type} [DecidableEq α] (f : α → Option β) (a : α) (v : Option β) :
    α → Option β :=
  fun x => if x = a then v else f x

/-- Mark a timer event as set (`Event.set()`). -/
def signalTimer (st : ServerState) (t : Nat) : ServerState :=
  { st with signaled := fun x => if x = t then true else st.signaled x }

/-- Sequencing: run the continuation only when the previous step returned
normally (an exception outcome propagates, skipping the rest). -/
def andThen (r : ServerState × Outcome) (k : ServerState → ServerState × Outcome) :
    ServerState × Outcome :=
  match r with
  | (st, Outcome.ok) => k st
  | r => r

/-- After an error reply, `sys.exit()` terminates the handling thread; if
the reply itself raised, that exception propagates instead. -/
def exitAfter (r : ServerState × Outcome) : ServerState × Outcome :=
  match r with
  | (st, Outcome.ok) => (st, Outcome.exited)
  | r => r

/-- File read done by `_handle_RRQ`: seek to `(block-1)*MAX_BYTES` and read
up to `MAX_BYTES` bytes. -/
def readSlice (contents : List Nat) (block : Int) : List Nat :=
  (contents.drop ((block - 1) * (MAX_BYTES : Int)).toNat).take MAX_BYTES

/-- File write done by `_handle_WRQ`: `open(filename, 'wb')` truncates the
file to empty, then `seek((block-1)*MAX_BYTES)` past the new end and
`write(buf)` zero-fills the gap, so the result is `offset` zero bytes
followed by `buf`, whatever the file held before. -/
def truncSeekWrite (block : Int) (buf : List Nat) : List Nat :=
  List.replicate (((block - 1) * (MAX_BYTES : Int)).toNat) 0 ++ buf

/-- Completion test of the write handler: `is_done` is `False` at block 0
and `len(buf) < MAX_BUFFER_WRQ` for a written block. -/
def wrq_is_done (block : Int) (buf : List Nat) : Bool :=
  decide (0 < block) && decide (buf.length < MAX_BUFFER_WRQ)

/-- Method `_handle_ERROR`: builds the ERROR packet and sends it through the
module-level global `sock` (line 116, `sock.sendto`, not `self.sock`); when
that global is unbound the name lookup raises `NameError` and nothing is
sent. -/
def handle_ERROR (st : ServerState) (addr : Nat) (code : Int) (msg : String) :
    ServerState × Outcome :=
  if st.gsock then
    ({ st with errSent := st.errSent ++ [(addr, OutMsg.err code msg)] }, Outcome.ok)
  else
    (st, Outcome.nameError)

/-- Method `_validate_mode`: anything but `'octet'` replies
ERROR(ILLEGAL_OPERATION) and exits the handling thread. -/
def validate_mode (st : ServerState) (addr : Nat) (mode : String) :
    ServerState × Outcome :=
  if mode = "octet" then (st, Outcome.ok)
  else exitAfter (handle_ERROR st addr ERR_ILLEGAL_TFTP_OP "TFTP only supports binary mode")

/-- Method `_validate_file`: a missing file replies ERROR(FILE_NOT_FOUND)
and exits the handling thread. -/
def validate_file (st : ServerState) (addr : Nat) (filename : String) :
    ServerState × Outcome :=
  if (st.fs filename).isSome then (st, Outcome.ok)
  else exitAfter (handle_ERROR st addr ERR_FILE_NOT_FOUND "File does not exist")

/-- Method `_handle_RRQ`: read the block at offset `(block-1)*MAX_BYTES`,
compute `is_done = len(buf) < MAX_BYTES`, store a fresh read context, send
DATA(block) and retransmit it once per elapsed timeout interval. -/
def handle_RRQ (st : ServerState) (addr : Nat) (filename : String) (block : Int)
    (misses : Nat) : ServerState × Outcome :=
  let contents := (st.fs filename).getD []
  let buf := readSlice contents block
  let is_done := decide (buf.length < MAX_BYTES)
  let pkt := OutMsg.data block buf
  let t := st.nextTimer
  ({ st with
      reads := upd st.reads addr (some ⟨filename, block, t, some is_done⟩),
      nextTimer := t + 1,
      sent := st.sent ++ (addr, pkt) :: List.replicate misses (addr, pkt) },
   Outcome.ok)

/-- Method `_handle_WRQ`: for `block > 0` write the payload (reopening the
file in truncating `'wb'` mode) and compute `is_done`; store a fresh write
context (the constructor is called without `is_done`, so the stored field is
`None`); send ACK(block), and unless `is_done` retransmit it once per
elapsed timeout interval. -/
def handle_WRQ (st : ServerState) (addr : Nat) (filename : String) (block : Int)
    (buf : List Nat) (misses : Nat) : ServerState × Outcome :=
  let st1 :=
    if 0 < block then
      { st with fs := upd st.fs filename (some (truncSeekWrite block buf)) }
    else st
  let is_done := wrq_is_done block buf
  let pkt := OutMsg.ack block
  let t := st1.nextTimer
  ({ st1 with
      writes := upd st1.writes addr (some ⟨filename, block, t, none⟩),
      nextTimer := t + 1,
      sent := st1.sent ++ (addr, pkt) ::
        (if is_done then [] else List.replicate misses (addr, pkt)) },
   Outcome.ok)

/-- Method `_handle_ACK`: `_validate_tid` replies ERROR(UNKNOWN_TID) and
exits when the peer has no read context; an ACK matching the context's
block number sets the timer event and, unless the context is done, sends
the next block; any other block number is ignored. -/
def handle_ACK (st : ServerState) (addr : Nat) (block : Int) (misses : Nat) :
    ServerState × Outcome :=
  match st.reads addr with
  | none => exitAfter (handle_ERROR st addr ERR_UNKNOWN_TID "Unknown transfer ID")
  | some fc =>
    if fc.block_num = block then
      let st1 := signalTimer st fc.timer
      if truthy fc.is_done then (st1, Outcome.ok)
      else handle_RRQ st1 addr fc.filename (fc.block_num + 1) misses
    else (st, Outcome.ok)

/-- Method `_handle_DATA`: `_validate_tid` replies ERROR(UNKNOWN_TID) and
exits when the peer has no write context; a DATA with block number
`fc.block_num + 1` sets the timer event and runs the write handler at that
block; any other block number is ignored. -/
def handle_DATA (st : ServerState) (addr : Nat) (block : Int) (buf : List Nat)
    (misses : Nat) : ServerState × Outcome :=
  match st.writes addr with
  | none => exitAfter (handle_ERROR st addr ERR_UNKNOWN_TID "Unknown transfer ID")
  | some fc =>
    if fc.block_num + 1 = block then
      let st1 := signalTimer st fc.timer
      handle_WRQ st1 addr fc.filename (fc.block_num + 1) buf misses
    else (st, Outcome.ok)

/-- Inbound datagrams after the dispatcher's `struct` decoding: the five
request shapes (an unrecognised opcode keeps only its opcode). -/
inductive InPkt where
  | rrq (filename mode : String)
  | wrq (filename mode : String)
  | ack (block : Int)
  | data (block : Int) (buf : List Nat)
  | unknown (opcode : Int)
deriving DecidableEq

/-- Method `_parse_pkt`: dispatch on the opcode.  RRQ validates the mode and
the file, then cancels any previous read context's timer for this peer and
starts the read at block 1; WRQ validates the mode, cancels any previous
write context's timer and starts the write at block 0 (the unused payload
default is modelled as `[]`); ACK and DATA go to their handlers; an unknown
opcode replies ERROR(NOT_DEFINED) without exiting. -/
def parse_pkt (st : ServerState) (p : InPkt) (addr : Nat) (misses : Nat) :
    ServerState × Outcome :=
  match p with
  | InPkt.rrq filename mode =>
      andThen (validate_mode st addr mode) fun st =>
      andThen (validate_file st addr filename) fun st =>
        let st2 :=
          match st.reads addr with
          | some old => signalTimer st old.timer
          | none => st
        handle_RRQ st2 addr filename 1 misses
  | InPkt.wrq filename mode =>
      andThen (validate_mode st addr mode) fun st =>
        let st2 :=
          match st.writes addr with
          | some old => signalTimer st old.timer
          | none => st
        handle_WRQ st2 addr filename 0 [] misses
  | InPkt.ack b => handle_ACK st addr b misses
  | InPkt.data b buf => handle_DATA st addr b buf misses
  | InPkt.unknown _ => handle_ERROR st addr ERR_NOT_DEFINED "Invalid packet type"

/-- Sequential run of several datagrams from one peer through the dispatch
loop of `run_server`, each handled to completion with no timeout misses
(every expected reply arrives before the first retransmission interval). -/
def runPkts (addr : Nat) (st : ServerState) (ps : List InPkt) : ServerState :=
  match ps with
  | [] => st
  | p :: rest => runPkts addr (parse_pkt st p addr 0).1 rest

/-- Fresh server over a given filesystem: empty context tables, no timer
set, empty traces, module-level `sock` bound (the `__main__` setup). -/
def initState (fs0 : String → Option (List Nat)) : ServerState :=
  ⟨fun _ => none, fun _ => none, fs0, fun _ => false, 0, [], [], true⟩

/-- The ACK sequence `start, start+1, ...` of the given length, as inbound
packets. -/
def ackSeqN (start : Nat) (count : Nat) : List InPkt :=
  match count with
  | 0 => []
  | c + 1 => InPkt.ack (start : Int) :: ackSeqN (start + 1) c

/-- The DATA packets a read transfer emits for blocks `lo, lo+1, ...` of the
given file contents. -/
def dataTrace (addr : Nat) (contents : List Nat) (lo : Nat) (count : Nat) :
    List (Nat × OutMsg) :=
  match count with
  | 0 => []
  | c + 1 =>
      (addr, OutMsg.data (lo : Int) (readSlice contents (lo : Int))) ::
        dataTrace addr contents (lo + 1) c

/-! ## Basic lemmas about the state operations -/

@[simp] lemma upd_same {α β : Type} [DecidableEq α] (f : α → Option β) (a : α)
    (v : Option β) : upd f a v a = v := by
  simp [upd]

lemma upd_ne {α β : Type} [DecidableEq α] (f : α → Option β) (a x : α)
    (v : Option β) (h : x ≠ a) : upd f a v x = f x := by
  simp [upd, h]

@[simp] lemma signalTimer_reads (st : ServerState) (t : Nat) :
    (signalTimer st t).reads = st.reads := rfl

@[simp] lemma signalTimer_writes (st : ServerState) (t : Nat) :
    (signalTimer st t).writes = st.writes := rfl

@[simp] lemma signalTimer_fs (st : ServerState) (t : Nat) :
    (signalTimer st t).fs = st.fs := rfl

@[simp] lemma signalTimer_nextTimer (st : ServerState) (t : Nat) :
    (signalTimer st t).nextTimer = st.nextTimer := rfl

@[simp] lemma signalTimer_sent (st : ServerState) (t : Nat) :
    (signalTimer st t).sent = st.sent := rfl

@[simp] lemma signalTimer_errSent (st : ServerState) (t : Nat) :
    (signalTimer st t).errSent = st.errSent := rfl

@[simp] lemma signalTimer_gsock (st : ServerState) (t : Nat) :
    (signalTimer st t).gsock = st.gsock := rfl

@[simp] lemma signalTimer_signaled_self (st : ServerState) (t : Nat) :
    (signalTimer st t).signaled t = true := by
  simp [signalTimer]

@[simp] lemma runPkts_nil (addr : Nat) (st : ServerState) :
    runPkts addr st [] = st := rfl

@[simp] lemma runPkts_cons (addr : Nat) (st : ServerState) (p : InPkt)
    (ps : List InPkt) :
    runPkts addr st (p :: ps) = runPkts addr (parse_pkt st p addr 0).1 ps := rfl

@[simp] lemma ackSeqN_succ (start c : Nat) :
    ackSeqN start (c + 1) = InPkt.ack (start : Int) :: ackSeqN (start + 1) c := rfl

@[simp] lemma dataTrace_length (addr : Nat) (contents : List Nat) :
    ∀ lo c, (dataTrace addr contents lo c).length = c := by
  intro lo c
  induction c generalizing lo with
  | zero => rfl
  | succ c ih => simp [dataTrace, ih]

/-! ## Concrete states used by witnesses and counterexamples -/

/-- Filesystem with no files. -/
def emptyFs : String → Option (List Nat) := fun _ => none

/-- Filesystem holding one file `"a"` of exactly one full block. -/
def fsA : String → Option (List Nat) :=
  fun s => if s = "a" then some (List.replicate MAX_BYTES 3) else none

/-- Server state with a read context and a write context for peer 7, a
completed read context for peer 8, and no context for peer 0. -/
def stW : ServerState :=
  { reads := fun a =>
      if a = 7 then some ⟨"f", 5, 0, some false⟩
      else if a = 8 then some ⟨"h", 4, 3, some true⟩ else none,
    writes := fun a =>
      if a = 7 then some ⟨"g", 3, 1, none⟩
      else if a = 8 then some ⟨"k", 2, 4, none⟩ else none,
    fs := fsA, signaled := fun _ => false, nextTimer := 10,
    sent := [], errSent := [], gsock := true }

/-- The same state with the module-level name `sock` unbound. -/
def stG : ServerState := { stW with gsock := false }

/-! ## Claims -/

/-- C8: for every outstanding unacknowledged transmission, each elapsed
timeout interval retransmits the byte-for-byte identical packet (the same
`OutMsg`, hence the same bytes), with no retry ceiling: with `N` missed
intervals the handler emits exactly `N + 1` copies of the one packet — the
original plus `N` retransmissions — both for a DATA awaiting its ACK
(`_handle_RRQ`) and for a non-final ACK awaiting the next DATA
(`_handle_WRQ`). -/
theorem c8_unbounded_retransmission (st : ServerState) (addr : Nat) (f : String)
    (b : Int) (buf : List Nat) (N : Nat)
    (hnd : wrq_is_done b buf = false) :
    (handle_RRQ st addr f b N).1.sent
      = st.sent ++ List.replicate (N + 1)
          (addr, OutMsg.data b (readSlice ((st.fs f).getD []) b)) ∧
    (handle_WRQ st addr f b buf N).1.sent
      = st.sent ++ List.replicate (N + 1) (addr, OutMsg.ack b) := by
  constructor
  · simp [handle_RRQ, List.replicate_succ]
  · by_cases hb : (0 : Int) < b <;>
      simp [handle_WRQ, hnd, hb, List.replicate_succ]

/-- Witness for C8 at a concrete state: `N = 2` misses yield three identical
transmissions for the read handler and for a full (non-final) write block. -/
theorem c8_unbounded_retransmission_witness :
    wrq_is_done 1 (List.replicate MAX_BYTES 0) = false ∧
    ((handle_RRQ (initState emptyFs) 0 "x" 1 2).1.sent
        = (initState emptyFs).sent ++ List.replicate 3
            (0, OutMsg.data 1 (readSlice (((initState emptyFs).fs "x").getD []) 1)) ∧
     (handle_WRQ (initState emptyFs) 0 "x" 1 (List.replicate MAX_BYTES 0) 2).1.sent
        = (initState emptyFs).sent ++ List.replicate 3 (0, OutMsg.ack 1)) :=
  ⟨by decide,
   c8_unbounded_retransmission (initState emptyFs) 0 "x" 1
     (List.replicate MAX_BYTES 0) 2 (by decide)⟩

/-- C2: for every accepted DATA in a write transfer, the completion flag the
handler computes and acts on is true iff the payload is strictly shorter
than the maximum block size; when it is false the ACK is retransmitted once
per missed interval (timer rearmed), and when it is true the final ACK is
sent exactly once with no retransmission loop (the transfer is done).  The
stored `FileContext` is built without `is_done` (constructor default
`None`), mirroring line 81 of the source. -/
theorem c2_write_completion_flag (st : ServerState) (addr : Nat)
    (fc : FileContext) (b : Int) (buf : List Nat) (misses : Nat)
    (hw : st.writes addr = some fc) (hpos : 0 ≤ fc.block_num)
    (hb : b = fc.block_num + 1) :
    (wrq_is_done (fc.block_num + 1) buf = true ↔ buf.length < MAX_BYTES) ∧
    (handle_DATA st addr b buf misses).1.sent
      = st.sent ++ (addr, OutMsg.ack (fc.block_num + 1)) ::
          (if wrq_is_done (fc.block_num + 1) buf then []
           else List.replicate misses (addr, OutMsg.ack (fc.block_num + 1))) ∧
    (wrq_is_done (fc.block_num + 1) buf = true →
      (handle_DATA st addr b buf misses).1.sent
        = st.sent ++ [(addr, OutMsg.ack (fc.block_num + 1))]) ∧
    (handle_DATA st addr b buf misses).1.writes addr
      = some ⟨fc.filename, fc.block_num + 1, st.nextTimer, none⟩ ∧
    (handle_DATA st addr b buf misses).2 = Outcome.ok := by
  have h1 : (0 : Int) < fc.block_num + 1 := by omega
  refine ⟨?_, ?_, ?_, ?_, ?_⟩
  · simp [wrq_is_done, MAX_BUFFER_WRQ, h1]
  · simp [handle_DATA, hw, hb, handle_WRQ, h1]
  · intro hdone
    simp [handle_DATA, hw, hb, handle_WRQ, h1, hdone]
  · simp [handle_DATA, hw, hb, handle_WRQ, h1]
  · simp [handle_DATA, hw, hb, handle_WRQ, h1]

/-- Witness for C2: peer 7's write context of `stW` is at block 3; DATA(4)
with a 3-byte payload is accepted, flagged complete and acknowledged once. -/
theorem c2_write_completion_flag_witness :
    (wrq_is_done ((3 : Int) + 1) [9, 9, 9] = true ↔ [9, 9, 9].length < MAX_BYTES) ∧
    (handle_DATA stW 7 4 [9, 9, 9] 6).1.sent
      = stW.sent ++ (7, OutMsg.ack ((3 : Int) + 1)) ::
          (if wrq_is_done ((3 : Int) + 1) [9, 9, 9] then []
           else List.replicate 6 (7, OutMsg.ack ((3 : Int) + 1))) ∧
    (wrq_is_done ((3 : Int) + 1) [9, 9, 9] = true →
      (handle_DATA stW 7 4 [9, 9, 9] 6).1.sent
        = stW.sent ++ [(7, OutMsg.ack ((3 : Int) + 1))]) ∧
    (handle_DATA stW 7 4 [9, 9, 9] 6).1.writes 7
      = some ⟨"g", (3 : Int) + 1, stW.nextTimer, none⟩ ∧
    (handle_DATA stW 7 4 [9, 9, 9] 6).2 = Outcome.ok :=
  c2_write_completion_flag stW 7 ⟨"g", 3, 1, none⟩ 4 [9, 9, 9] 6
    rfl (by decide) (by decide)

/-- C9: a new RRQ (resp. WRQ) from a peer that already has a read (resp.
write) context first sets the old context's timer event and then overwrites
the single table slot for that (direction, peer) with the new context, so
at most one live context per pair exists (the tables are maps). -/
theorem c9_preemption_cancels_old_timer (st : ServerState) (addr : Nat)
    (f : String) (m : Nat) (oldR oldW : FileContext) (contents : List Nat)
    (hr : st.reads addr = some oldR) (hw : st.writes addr = some oldW)
    (hf : st.fs f = some contents) :
    ((parse_pkt st (InPkt.rrq f "octet") addr m).1.signaled oldR.timer = true ∧
     (parse_pkt st (InPkt.rrq f "octet") addr m).1.reads addr
       = some ⟨f, 1, st.nextTimer,
           some (decide ((readSlice contents 1).length < MAX_BYTES))⟩) ∧
    ((parse_pkt st (InPkt.wrq f "octet") addr m).1.signaled oldW.timer = true ∧
     (parse_pkt st (InPkt.wrq f "octet") addr m).1.writes addr
       = some ⟨f, 0, st.nextTimer, none⟩) := by
  refine ⟨⟨?_, ?_⟩, ⟨?_, ?_⟩⟩ <;>
    simp [parse_pkt, validate_mode, validate_file, andThen, hf, hr, hw,
      handle_RRQ, handle_WRQ, signalTimer]

/-- Witness for C9: peer 7 of `stW` has both a read and a write context;
a fresh RRQ/WRQ for file `"a"` cancels the old timers (ids 0 and 1) and
installs the new contexts. -/
theorem c9_preemption_cancels_old_timer_witness :
    (((parse_pkt stW (InPkt.rrq "a" "octet") 7 4).1.signaled
        (FileContext.mk "f" 5 0 (some false)).timer = true ∧
      (parse_pkt stW (InPkt.rrq "a" "octet") 7 4).1.reads 7
        = some ⟨"a", 1, stW.nextTimer,
            some (decide ((readSlice (List.replicate MAX_BYTES 3) 1).length
              < MAX_BYTES))⟩) ∧
     ((parse_pkt stW (InPkt.wrq "a" "octet") 7 4).1.signaled
        (FileContext.mk "g" 3 1 none).timer = true ∧
      (parse_pkt stW (InPkt.wrq "a" "octet") 7 4).1.writes 7
        = some ⟨"a", 0, stW.nextTimer, none⟩)) :=
  c9_preemption_cancels_old_timer stW 7 "a" 4 ⟨"f", 5, 0, some false⟩
    ⟨"g", 3, 1, none⟩ (List.replicate MAX_BYTES 3) rfl rfl rfl

/-- C6: an RRQ with a valid mode naming a missing file replies with exactly
one ERROR(FILE_NOT_FOUND) packet (through the global socket), sends no DATA
packet (`sent` is untouched), creates or modifies no read context — indeed
no state component changes — and only that request's handling thread exits
(`sys.exit` raises `SystemExit` inside the worker thread). -/
theorem c6_rrq_missing_file (st : ServerState) (addr : Nat) (f : String)
    (m : Nat) (hf : st.fs f = none) (hg : st.gsock = true) :
    (parse_pkt st (InPkt.rrq f "octet") addr m).1.errSent
      = st.errSent ++ [(addr, OutMsg.err ERR_FILE_NOT_FOUND "File does not exist")] ∧
    (parse_pkt st (InPkt.rrq f "octet") addr m).1.sent = st.sent ∧
    (parse_pkt st (InPkt.rrq f "octet") addr m).1.reads = st.reads ∧
    (parse_pkt st (InPkt.rrq f "octet") addr m).1.writes = st.writes ∧
    (parse_pkt st (InPkt.rrq f "octet") addr m).1.fs = st.fs ∧
    (parse_pkt st (InPkt.rrq f "octet") addr m).1.signaled = st.signaled ∧
    (parse_pkt st (InPkt.rrq f "octet") addr m).2 = Outcome.exited := by
  simp [parse_pkt, validate_mode, validate_file, andThen, hf, hg,
    handle_ERROR, exitAfter]

/-- Witness for C6: an RRQ for the missing file `"nope"` against `stW`. -/
theorem c6_rrq_missing_file_witness :
    (parse_pkt stW (InPkt.rrq "nope" "octet") 0 5).1.errSent
      = stW.errSent ++ [(0, OutMsg.err ERR_FILE_NOT_FOUND "File does not exist")] ∧
    (parse_pkt stW (InPkt.rrq "nope" "octet") 0 5).1.sent = stW.sent ∧
    (parse_pkt stW (InPkt.rrq "nope" "octet") 0 5).1.reads = stW.reads ∧
    (parse_pkt stW (InPkt.rrq "nope" "octet") 0 5).1.writes = stW.writes ∧
    (parse_pkt stW (InPkt.rrq "nope" "octet") 0 5).1.fs = stW.fs ∧
    (parse_pkt stW (InPkt.rrq "nope" "octet") 0 5).1.signaled = stW.signaled ∧
    (parse_pkt stW (InPkt.rrq "nope" "octet") 0 5).2 = Outcome.exited :=
  c6_rrq_missing_file stW 0 "nope" 5 rfl rfl

/-- C7: an ACK from a peer with no read context, and a DATA from a peer with
no write context, each reply ERROR(UNKNOWN_TRANSFER_ID) through the global
socket and exit only that request's handling thread; the whole context
tables (hence every other peer's contexts), the filesystem, the timers and
the `self.sock` trace are left unmodified. -/
theorem c7_unknown_tid_local (st : ServerState) (addrA addrD : Nat)
    (b c : Int) (buf : List Nat) (m : Nat)
    (hra : st.reads addrA = none) (hwd : st.writes addrD = none)
    (hg : st.gsock = true) :
    ((parse_pkt st (InPkt.ack b) addrA m).1.errSent
        = st.errSent ++ [(addrA, OutMsg.err ERR_UNKNOWN_TID "Unknown transfer ID")] ∧
     (parse_pkt st (InPkt.ack b) addrA m).1.sent = st.sent ∧
     (parse_pkt st (InPkt.ack b) addrA m).1.reads = st.reads ∧
     (parse_pkt st (InPkt.ack b) addrA m).1.writes = st.writes ∧
     (parse_pkt st (InPkt.ack b) addrA m).1.fs = st.fs ∧
     (parse_pkt st (InPkt.ack b) addrA m).1.signaled = st.signaled ∧
     (parse_pkt st (InPkt.ack b) addrA m).2 = Outcome.exited) ∧
    ((parse_pkt st (InPkt.data c buf) addrD m).1.errSent
        = st.errSent ++ [(addrD, OutMsg.err ERR_UNKNOWN_TID "Unknown transfer ID")] ∧
     (parse_pkt st (InPkt.data c buf) addrD m).1.sent = st.sent ∧
     (parse_pkt st (InPkt.data c buf) addrD m).1.reads = st.reads ∧
     (parse_pkt st (InPkt.data c buf) addrD m).1.writes = st.writes ∧
     (parse_pkt st (InPkt.data c buf) addrD m).1.fs = st.fs ∧
     (parse_pkt st (InPkt.data c buf) addrD m).1.signaled = st.signaled ∧
     (parse_pkt st (InPkt.data c buf) addrD m).2 = Outcome.exited) := by
  constructor <;>
    simp [parse_pkt, handle_ACK, handle_DATA, hra, hwd, hg,
      handle_ERROR, exitAfter]

/-- Witness for C7: peer 0 of `stW` has no context in either table. -/
theorem c7_unknown_tid_local_witness :
    (((parse_pkt stW (InPkt.ack 2) 0 1).1.errSent
        = stW.errSent ++ [(0, OutMsg.err ERR_UNKNOWN_TID "Unknown transfer ID")] ∧
      (parse_pkt stW (InPkt.ack 2) 0 1).1.sent = stW.sent ∧
      (parse_pkt stW (InPkt.ack 2) 0 1).1.reads = stW.reads ∧
      (parse_pkt stW (InPkt.ack 2) 0 1).1.writes = stW.writes ∧
      (parse_pkt stW (InPkt.ack 2) 0 1).1.fs = stW.fs ∧
      (parse_pkt stW (InPkt.ack 2) 0 1).1.signaled = stW.signaled ∧
      (parse_pkt stW (InPkt.ack 2) 0 1).2 = Outcome.exited) ∧
     ((parse_pkt stW (InPkt.data 1 [4]) 0 1).1.errSent
        = stW.errSent ++ [(0, OutMsg.err ERR_UNKNOWN_TID "Unknown transfer ID")] ∧
      (parse_pkt stW (InPkt.data 1 [4]) 0 1).1.sent = stW.sent ∧
      (parse_pkt stW (InPkt.data 1 [4]) 0 1).1.reads = stW.reads ∧
      (parse_pkt stW (InPkt.data 1 [4]) 0 1).1.writes = stW.writes ∧
      (parse_pkt stW (InPkt.data 1 [4]) 0 1).1.fs = stW.fs ∧
      (parse_pkt stW (InPkt.data 1 [4]) 0 1).1.signaled = stW.signaled ∧
      (parse_pkt stW (InPkt.data 1 [4]) 0 1).2 = Outcome.exited)) :=
  c7_unknown_tid_local stW 0 0 2 1 [4] 1 rfl rfl rfl

/-- C10: `_handle_ERROR` transmits through the module-level global `sock`
(the `errSent` channel), never through `self.sock` (the `sent` channel);
with the global unbound, every error branch — RRQ or WRQ with a wrong mode,
RRQ for a missing file, ACK or DATA without a context, and an unknown
opcode — ends in `NameError` with no packet sent at all. -/
theorem c10_error_uses_global_sock (st st2 : ServerState) (addr a2 : Nat)
    (f fn mode : String) (b c opc : Int) (buf : List Nat) (m : Nat)
    (code : Int) (msg : String)
    (hg : st.gsock = false) (hm : mode ≠ "octet") (hf : st.fs fn = none)
    (hra : st.reads addr = none) (hwa : st.writes addr = none)
    (hg2 : st2.gsock = true) :
    ((parse_pkt st (InPkt.rrq f mode) addr m).2 = Outcome.nameError ∧
     (parse_pkt st (InPkt.rrq f mode) addr m).1.errSent = st.errSent ∧
     (parse_pkt st (InPkt.rrq f mode) addr m).1.sent = st.sent) ∧
    ((parse_pkt st (InPkt.wrq f mode) addr m).2 = Outcome.nameError ∧
     (parse_pkt st (InPkt.wrq f mode) addr m).1.errSent = st.errSent ∧
     (parse_pkt st (InPkt.wrq f mode) addr m).1.sent = st.sent) ∧
    ((parse_pkt st (InPkt.rrq fn "octet") addr m).2 = Outcome.nameError ∧
     (parse_pkt st (InPkt.rrq fn "octet") addr m).1.errSent = st.errSent ∧
     (parse_pkt st (InPkt.rrq fn "octet") addr m).1.sent = st.sent) ∧
    ((parse_pkt st (InPkt.ack b) addr m).2 = Outcome.nameError ∧
     (parse_pkt st (InPkt.ack b) addr m).1.errSent = st.errSent ∧
     (parse_pkt st (InPkt.ack b) addr m).1.sent = st.sent) ∧
    ((parse_pkt st (InPkt.data c buf) addr m).2 = Outcome.nameError ∧
     (parse_pkt st (InPkt.data c buf) addr m).1.errSent = st.errSent ∧
     (parse_pkt st (InPkt.data c buf) addr m).1.sent = st.sent) ∧
    ((parse_pkt st (InPkt.unknown opc) addr m).2 = Outcome.nameError ∧
     (parse_pkt st (InPkt.unknown opc) addr m).1.errSent = st.errSent ∧
     (parse_pkt st (InPkt.unknown opc) addr m).1.sent = st.sent) ∧
    ((handle_ERROR st2 a2 code msg).1.sent = st2.sent ∧
     (handle_ERROR st2 a2 code msg).1.errSent
       = st2.errSent ++ [(a2, OutMsg.err code msg)]) := by
  refine ⟨?_, ?_, ?_, ?_, ?_, ?_, ?_⟩ <;>
    simp [parse_pkt, validate_mode, validate_file, andThen, hf, hg, hm, hra,
      hwa, hg2, handle_ACK, handle_DATA, handle_ERROR, exitAfter]

/-- Witness for C10: `stG` is `stW` with the module-level `sock` unbound;
peer 0 has no contexts and `"nope"` is missing. -/
theorem c10_error_uses_global_sock_witness :
    (((parse_pkt stG (InPkt.rrq "x" "mail") 0 1).2 = Outcome.nameError ∧
      (parse_pkt stG (InPkt.rrq "x" "mail") 0 1).1.errSent = stG.errSent ∧
      (parse_pkt stG (InPkt.rrq "x" "mail") 0 1).1.sent = stG.sent) ∧
     ((parse_pkt stG (InPkt.wrq "x" "mail") 0 1).2 = Outcome.nameError ∧
      (parse_pkt stG (InPkt.wrq "x" "mail") 0 1).1.errSent = stG.errSent ∧
      (parse_pkt stG (InPkt.wrq "x" "mail") 0 1).1.sent = stG.sent) ∧
     ((parse_pkt stG (InPkt.rrq "nope" "octet") 0 1).2 = Outcome.nameError ∧
      (parse_pkt stG (InPkt.rrq "nope" "octet") 0 1).1.errSent = stG.errSent ∧
      (parse_pkt stG (InPkt.rrq "nope" "octet") 0 1).1.sent = stG.sent) ∧
     ((parse_pkt stG (InPkt.ack 3) 0 1).2 = Outcome.nameError ∧
      (parse_pkt stG (InPkt.ack 3) 0 1).1.errSent = stG.errSent ∧
      (parse_pkt stG (InPkt.ack 3) 0 1).1.sent = stG.sent) ∧
     ((parse_pkt stG (InPkt.data 1 [2]) 0 1).2 = Outcome.nameError ∧
      (parse_pkt stG (InPkt.data 1 [2]) 0 1).1.errSent = stG.errSent ∧
      (parse_pkt stG (InPkt.data 1 [2]) 0 1).1.sent = stG.sent) ∧
     ((parse_pkt stG (InPkt.unknown 9) 0 1).2 = Outcome.nameError ∧
      (parse_pkt stG (InPkt.unknown 9) 0 1).1.errSent = stG.errSent ∧
      (parse_pkt stG (InPkt.unknown 9) 0 1).1.sent = stG.sent) ∧
     ((handle_ERROR stW 1 3 "oops").1.sent = stW.sent ∧
      (handle_ERROR stW 1 3 "oops").1.errSent
        = stW.errSent ++ [(1, OutMsg.err 3 "oops")])) :=
  c10_error_uses_global_sock stG stW 0 1 "x" "nope" "mail" 3 1 9 [2] 1 3
    "oops" rfl (by decide) rfl rfl rfl rfl

/-- C4: for an active read (resp. write) context, an accepted matching
packet — ACK(n) for a read awaiting n and not done, DATA(n+1) for a write
at n — advances the stored block number by exactly one; any other sequence
number leaves the whole state unchanged and sends nothing (in particular
the pending timer event is not set); and a repeat of the final accepted ACK
sends nothing, advances nothing, and — its timer event being already set —
changes no state at all. -/
theorem c4_lockstep_block_advance (st : ServerState) (addr : Nat)
    (fc gc : FileContext) (b c : Int) (buf : List Nat) (m : Nat)
    (hr : st.reads addr = some fc) (hw : st.writes addr = some gc) :
    (fc.block_num = b → truthy fc.is_done = false →
      (handle_ACK st addr b m).1.reads addr
        = some ⟨fc.filename, fc.block_num + 1, st.nextTimer,
            some (decide ((readSlice ((st.fs fc.filename).getD [])
              (fc.block_num + 1)).length < MAX_BYTES))⟩) ∧
    (fc.block_num ≠ b → handle_ACK st addr b m = (st, Outcome.ok)) ∧
    (fc.block_num = b → truthy fc.is_done = true →
      (handle_ACK st addr b m).1.sent = st.sent ∧
      (handle_ACK st addr b m).1.reads = st.reads ∧
      (st.signaled fc.timer = true →
        (handle_ACK st addr b m).1.signaled = st.signaled)) ∧
    (gc.block_num + 1 = c →
      (handle_DATA st addr c buf m).1.writes addr
        = some ⟨gc.filename, gc.block_num + 1, st.nextTimer, none⟩) ∧
    (gc.block_num + 1 ≠ c → handle_DATA st addr c buf m = (st, Outcome.ok)) := by
  refine ⟨?_, ?_, ?_, ?_, ?_⟩
  · intro hb hdone
    simp [handle_ACK, hr, hb, hdone, handle_RRQ]
  · intro hb
    simp [handle_ACK, hr, hb]
  · intro hb hdone
    refine ⟨?_, ?_, ?_⟩
    · simp [handle_ACK, hr, hb, hdone]
    · simp [handle_ACK, hr, hb, hdone]
    · intro hsig
      funext x
      by_cases hx : x = fc.timer <;>
        simp [handle_ACK, hr, hb, hdone, signalTimer, hx, hsig]
  · intro hc
    by_cases hp : (0 : Int) < c <;>
      simp [handle_DATA, hw, hc, handle_WRQ, hp]
  · intro hc
    simp [handle_DATA, hw, hc]

/-- Witness for C4 on `stW`: peer 7's read context awaits ACK(5) and its
write context sits at block 3; ACK(5) advances the read context to 6, a
mismatched ACK(9) and a mismatched DATA(9) change nothing, peer 8's
completed read context absorbs a repeated final ACK(4) silently, and
DATA(4) advances peer 7's write context to 4. -/
theorem c4_lockstep_block_advance_witness :
    ((handle_ACK stW 7 5 2).1.reads 7
        = some ⟨"f", (5 : Int) + 1, stW.nextTimer,
            some (decide ((readSlice ((stW.fs "f").getD [])
              ((5 : Int) + 1)).length < MAX_BYTES))⟩) ∧
    (handle_ACK stW 7 9 2 = (stW, Outcome.ok)) ∧
    ((handle_ACK stW 8 4 2).1.sent = stW.sent ∧
     (handle_ACK stW 8 4 2).1.reads = stW.reads) ∧
    ((handle_DATA stW 7 4 [1] 2).1.writes 7
        = some ⟨"g", (3 : Int) + 1, stW.nextTimer, none⟩) ∧
    (handle_DATA stW 7 9 [1] 2 = (stW, Outcome.ok)) := by
  have h7 := c4_lockstep_block_advance stW 7 ⟨"f", 5, 0, some false⟩
    ⟨"g", 3, 1, none⟩ 5 4 [1] 2 rfl rfl
  have h7m := c4_lockstep_block_advance stW 7 ⟨"f", 5, 0, some false⟩
    ⟨"g", 3, 1, none⟩ 9 9 [1] 2 rfl rfl
  have h8 := c4_lockstep_block_advance stW 8 ⟨"h", 4, 3, some true⟩
    ⟨"k", 2, 4, none⟩ 4 4 [1] 2 (by decide) (by decide)
  exact ⟨h7.1 rfl rfl, h7m.2.1 (by decide),
    ⟨(h8.2.2.1 rfl rfl).1, (h8.2.2.1 rfl rfl).2.1⟩,
    h7.2.2.2.1 rfl, h7m.2.2.2.2 (by decide)⟩

/-- Counterexample to C3: peer 7 writes a one-block file to `"f"` — the
3-byte DATA(1) is below the block size, so the transfer completes at the
ACK(1) — yet with no intervening WRQ a subsequent DATA(2) is accepted and
a further ACK(2) is sent for the same context, because line 81 of the
source stores the write context without its `is_done` flag. -/
theorem c3_completion_counterexample :
    ([(9 : Nat), 9, 9].length < MAX_BUFFER_WRQ) ∧
    (runPkts 7 (initState emptyFs)
        [InPkt.wrq "f" "octet", InPkt.data 1 [9, 9, 9]]).sent
      = [(7, OutMsg.ack 0), (7, OutMsg.ack 1)] ∧
    (runPkts 7 (initState emptyFs)
        [InPkt.wrq "f" "octet", InPkt.data 1 [9, 9, 9], InPkt.data 2 [5]]).sent
      = [(7, OutMsg.ack 0), (7, OutMsg.ack 1), (7, OutMsg.ack 2)] := by
  refine ⟨by decide, by decide, by decide⟩

/-- C3 (amended): once a READ context's completion flag is true, no inbound
ACK for it causes another packet send, file read or context change; write
contexts, however, are stored with `is_done = None` (never recording
completion), so a DATA carrying the next sequence number after the final
short block is still accepted: the file is rewritten and a further ACK is
sent. -/
theorem c3_completion_read_only (st : ServerState) (addrR addrW : Nat)
    (fc gc : FileContext) (b blk : Int) (buf buf2 : List Nat) (m : Nat)
    (f2 : String)
    (hr : st.reads addrR = some fc) (hdone : fc.is_done = some true)
    (hw : st.writes addrW = some gc) (hpos : 0 ≤ gc.block_num) :
    ((handle_ACK st addrR b m).1.sent = st.sent ∧
     (handle_ACK st addrR b m).1.reads = st.reads ∧
     (handle_ACK st addrR b m).1.fs = st.fs) ∧
    ((handle_WRQ st addrW f2 blk buf2 m).1.writes addrW
        = some ⟨f2, blk, st.nextTimer, none⟩) ∧
    (∃ rest, (handle_DATA st addrW (gc.block_num + 1) buf m).1.sent
        = st.sent ++ (addrW, OutMsg.ack (gc.block_num + 1)) :: rest) ∧
    ((handle_DATA st addrW (gc.block_num + 1) buf m).1.fs gc.filename
        = some (truncSeekWrite (gc.block_num + 1) buf)) := by
  have h1 : (0 : Int) < gc.block_num + 1 := by omega
  refine ⟨?_, ?_, ?_, ?_⟩
  · by_cases hb : fc.block_num = b <;>
      simp [handle_ACK, hr, hb, hdone, truthy]
  · by_cases hblk : (0 : Int) < blk <;>
      simp [handle_WRQ, hblk]
  · exact ⟨if wrq_is_done (gc.block_num + 1) buf then []
      else List.replicate m (addrW, OutMsg.ack (gc.block_num + 1)),
      by simp [handle_DATA, hw, handle_WRQ, h1]⟩
  · simp [handle_DATA, hw, handle_WRQ, h1]

/-- Witness for C3 (amended) on `stW`: peer 8's read context is complete and
ignores ACK(9); peer 8's write context at block 2 stores no completion flag
and DATA(3) is still written and acknowledged. -/
theorem c3_completion_read_only_witness :
    (((handle_ACK stW 8 9 2).1.sent = stW.sent ∧
      (handle_ACK stW 8 9 2).1.reads = stW.reads ∧
      (handle_ACK stW 8 9 2).1.fs = stW.fs) ∧
     ((handle_WRQ stW 8 "q" 1 [7] 2).1.writes 8
        = some ⟨"q", 1, stW.nextTimer, none⟩) ∧
     (∃ rest, (handle_DATA stW 8 ((2 : Int) + 1) [7] 2).1.sent
        = stW.sent ++ (8, OutMsg.ack ((2 : Int) + 1)) :: rest) ∧
     ((handle_DATA stW 8 ((2 : Int) + 1) [7] 2).1.fs "k"
        = some (truncSeekWrite ((2 : Int) + 1) [7]))) :=
  c3_completion_read_only stW 8 8 ⟨"h", 4, 3, some true⟩ ⟨"k", 2, 4, none⟩
    9 1 [7] [7] 2 "q" (by decide) rfl (by decide) (by decide)

/-- C1 (failing input): peer 7 writes two blocks to `"f"`: DATA(1) carries a
full block of byte 1, DATA(2) carries `[2, 2, 2]`.  Because `_handle_WRQ`
reopens the file in truncating `'wb'` mode for every block (line 73), the
accepted DATA(2) destroys block 1: the final file is 512 zero bytes (the
seek past the truncated end zero-fills) followed by `[2, 2, 2]`, not the
concatenation of the two received payloads. -/
theorem c1_write_truncates_previous_blocks :
    (runPkts 7 (initState emptyFs)
        [InPkt.wrq "f" "octet",
         InPkt.data 1 (List.replicate MAX_BYTES 1),
         InPkt.data 2 [2, 2, 2]]).fs "f"
      = some (List.replicate MAX_BYTES 0 ++ [2, 2, 2]) ∧
    List.replicate MAX_BYTES 0 ++ [2, 2, 2]
      ≠ List.replicate MAX_BYTES 1 ++ [2, 2, 2] := by
  refine ⟨by decide, by decide⟩

lemma readSlice_len_full (contents : List Nat) (k n : Nat)
    (hlen : contents.length = MAX_BYTES * k) (h1 : 1 ≤ n) (h2 : n ≤ k) :
    (readSlice contents (n : Int)).length = MAX_BYTES := by
  have hoff : (((n : Int) - 1) * (MAX_BYTES : Int)).toNat = (n - 1) * MAX_BYTES := by
    simp [MAX_BYTES]
    omega
  simp [readSlice, hoff, hlen, MAX_BYTES] at *
  omega

lemma readSlice_after_end (contents : List Nat) (k : Nat)
    (hlen : contents.length = MAX_BYTES * k) :
    readSlice contents ((k + 1 : Nat) : Int) = [] := by
  have h1 : ((((k + 1 : Nat) : Int) - 1) * (MAX_BYTES : Int))
      = ((k * MAX_BYTES : Nat) : Int) := by
    push_cast
    ring
  unfold readSlice
  rw [h1, Int.toNat_natCast, List.drop_eq_nil_of_le (le_of_eq (by rw [hlen]; ring))]
  simp

lemma ack_step_accept (st : ServerState) (addr : Nat) (f : String)
    (contents : List Nat) (b t : Nat)
    (hfs : st.fs f = some contents)
    (hctx : st.reads addr = some ⟨f, (b : Int), t, some false⟩) :
    (parse_pkt st (InPkt.ack (b : Int)) addr 0).1
      = { st with
          signaled := fun x => if x = t then true else st.signaled x,
          reads := upd st.reads addr (some ⟨f, ((b + 1 : Nat) : Int), st.nextTimer,
            some (decide ((readSlice contents ((b + 1 : Nat) : Int)).length < MAX_BYTES))⟩),
          nextTimer := st.nextTimer + 1,
          sent := st.sent ++ [(addr, OutMsg.data ((b + 1 : Nat) : Int)
            (readSlice contents ((b + 1 : Nat) : Int)))] } := by
  simp [parse_pkt, handle_ACK, hctx, truthy, handle_RRQ, hfs, signalTimer]

lemma ack_step_done (st : ServerState) (addr : Nat) (fc : FileContext)
    (b : Int) (hctx : st.reads addr = some fc) (hb : fc.block_num = b)
    (hdone : fc.is_done = some true) :
    (parse_pkt st (InPkt.ack b) addr 0).1 = signalTimer st fc.timer := by
  simp [parse_pkt, handle_ACK, hctx, hb, hdone, truthy]

lemma ackSeqN_zero (start : Nat) : ackSeqN start 0 = [] := rfl

/-- Central induction for C5: from a stored read context at block `b` that
is not yet complete, feeding the matching ACKs `b, b+1, ..., k+1` in order
appends exactly the DATA packets for blocks `b+1 .. k+1` to the trace and
ends with the context complete at block `k+1`. -/
lemma read_transfer_run (j : Nat) :
    ∀ (st : ServerState) (b k : Nat) (f : String) (contents : List Nat)
      (t addr : Nat),
      st.fs f = some contents →
      contents.length = MAX_BYTES * k →
      st.reads addr = some ⟨f, (b : Int), t, some false⟩ →
      1 ≤ b → b + j = k →
      (runPkts addr st (ackSeqN b (j + 2))).sent
          = st.sent ++ dataTrace addr contents (b + 1) (j + 1) ∧
      (∃ t2, (runPkts addr st (ackSeqN b (j + 2))).reads addr
          = some ⟨f, ((k + 1 : Nat) : Int), t2, some true⟩) ∧
      (runPkts addr st (ackSeqN b (j + 2))).fs = st.fs ∧
      (runPkts addr st (ackSeqN b (j + 2))).writes = st.writes ∧
      (runPkts addr st (ackSeqN b (j + 2))).errSent = st.errSent := by
  induction j with
  | zero =>
    intro st b k f contents t addr hfs hlen hctx hb hbk
    have hbk' : b = k := by omega
    subst hbk'
    have hslice : readSlice contents ((b + 1 : Nat) : Int) = [] :=
      readSlice_after_end contents b hlen
    have hslice2 : readSlice contents ((b : Int) + 1) = [] := by
      rw [show ((b : Int) + 1) = ((b + 1 : Nat) : Int) from by push_cast; ring]
      exact hslice
    have hstep := ack_step_accept st addr f contents b t hfs hctx
    rw [hslice] at hstep
    have hdec : (decide ((List.length ([] : List Nat)) < MAX_BYTES)) = true := by decide
    rw [hdec] at hstep
    rw [show ackSeqN b (0 + 2)
        = [InPkt.ack (b : Int), InPkt.ack ((b + 1 : Nat) : Int)] from rfl]
    simp only [runPkts_cons, runPkts_nil]
    rw [hstep]
    have hctx2 : ({ st with
          signaled := fun x => if x = t then true else st.signaled x,
          reads := upd st.reads addr (some ⟨f, ((b + 1 : Nat) : Int), st.nextTimer,
            some true⟩),
          nextTimer := st.nextTimer + 1,
          sent := st.sent ++ [(addr, OutMsg.data ((b + 1 : Nat) : Int) ([] : List Nat))] }
        : ServerState).reads addr
        = some ⟨f, ((b + 1 : Nat) : Int), st.nextTimer, some true⟩ := by
      simp [upd]
    rw [ack_step_done _ addr _ _ hctx2 rfl rfl]
    refine ⟨?_, ⟨st.nextTimer, ?_⟩, ?_, ?_, ?_⟩ <;>
      simp [signalTimer, upd, dataTrace, hslice, hslice2]
  | succ j ih =>
    intro st b k f contents t addr hfs hlen hctx hb hbk
    have hfull : (readSlice contents ((b + 1 : Nat) : Int)).length = MAX_BYTES :=
      readSlice_len_full contents k (b + 1) hlen (by omega) (by omega)
    have hdec : decide ((readSlice contents ((b + 1 : Nat) : Int)).length < MAX_BYTES)
        = false := by
      rw [hfull]
      simp
    have hstep := ack_step_accept st addr f contents b t hfs hctx
    rw [hdec] at hstep
    rw [show ackSeqN b (j + 1 + 2)
        = InPkt.ack (b : Int) :: ackSeqN (b + 1) (j + 2) from rfl]
    simp only [runPkts_cons]
    rw [hstep]
    have ihres := ih { st with
        signaled := fun x => if x = t then true else st.signaled x,
        reads := upd st.reads addr (some ⟨f, ((b + 1 : Nat) : Int), st.nextTimer,
          some false⟩),
        nextTimer := st.nextTimer + 1,
        sent := st.sent ++ [(addr, OutMsg.data ((b + 1 : Nat) : Int)
          (readSlice contents ((b + 1 : Nat) : Int)))] }
      (b + 1) k f contents st.nextTimer addr (by simp [hfs]) hlen (by simp [upd])
      (by omega) (by omega)
    rcases ihres with ⟨hsent, ⟨t2, hreads⟩, hfs2, hwrites, herr⟩
    refine ⟨?_, ⟨t2, ?_⟩, ?_, ?_, ?_⟩
    · rw [hsent]
      simp [dataTrace]
    · exact hreads
    · exact hfs2.trans rfl
    · exact hwrites.trans rfl
    · exact herr.trans rfl

lemma rrq_step (st : ServerState) (addr : Nat) (f : String) (contents : List Nat)
    (hfs : st.fs f = some contents) (hnone : st.reads addr = none) :
    (parse_pkt st (InPkt.rrq f "octet") addr 0).1
      = { st with
          reads := upd st.reads addr (some ⟨f, (1 : Int), st.nextTimer,
            some (decide ((readSlice contents 1).length < MAX_BYTES))⟩),
          nextTimer := st.nextTimer + 1,
          sent := st.sent ++ [(addr, OutMsg.data 1 (readSlice contents 1))] } := by
  simp [parse_pkt, validate_mode, validate_file, andThen, hfs, hnone, handle_RRQ]

/-- C5: a read transfer of a file whose length is a positive exact multiple
`k` of the block size, with every DATA acknowledged in sequence and no
timeouts, sends exactly `k + 1` DATA packets — block `n` carrying the bytes
at offset `(n-1)*MAX_BYTES` (function `readSlice`, the handler's read) —
the final one empty; the completion flag `bytesRead < MAX_BYTES` is false
for every block but the final one, and the final context is stored
complete at block `k + 1`. -/
theorem c5_read_exact_multiple (fs0 : String → Option (List Nat)) (f : String)
    (contents : List Nat) (k addr : Nat)
    (hfs : fs0 f = some contents) (hlen : contents.length = MAX_BYTES * k)
    (hk : 1 ≤ k) :
    (runPkts addr (initState fs0) (InPkt.rrq f "octet" :: ackSeqN 1 (k + 1))).sent
        = dataTrace addr contents 1 (k + 1) ∧
    (dataTrace addr contents 1 (k + 1)).length = k + 1 ∧
    readSlice contents ((k + 1 : Nat) : Int) = [] ∧
    (∀ n : Nat, 1 ≤ n → n ≤ k + 1 →
      ((readSlice contents (n : Int)).length < MAX_BYTES ↔ n = k + 1)) ∧
    (∃ t2, (runPkts addr (initState fs0)
        (InPkt.rrq f "octet" :: ackSeqN 1 (k + 1))).reads addr
      = some ⟨f, ((k + 1 : Nat) : Int), t2, some true⟩) := by
  have hifs : (initState fs0).fs f = some contents := hfs
  have hnone : (initState fs0).reads addr = none := rfl
  have hdec1 : decide ((readSlice contents (1 : Int)).length < MAX_BYTES) = false := by
    have h1 := readSlice_len_full contents k 1 hlen (le_refl 1) hk
    rw [show ((1 : Nat) : Int) = (1 : Int) from Nat.cast_one] at h1
    rw [h1]
    simp
  have hstep := rrq_step (initState fs0) addr f contents hifs hnone
  rw [hdec1] at hstep
  rw [show (InPkt.rrq f "octet" :: ackSeqN 1 (k + 1)) =
    [InPkt.rrq f "octet"] ++ ackSeqN 1 (k + 1) from rfl]
  have hrun : ∀ st : ServerState, runPkts addr st ([InPkt.rrq f "octet"] ++ ackSeqN 1 (k + 1))
      = runPkts addr (parse_pkt st (InPkt.rrq f "octet") addr 0).1 (ackSeqN 1 (k + 1)) :=
    fun st => rfl
  rw [hrun, hstep]
  have hmain := read_transfer_run (k - 1)
    { initState fs0 with
        reads := upd (initState fs0).reads addr (some ⟨f, (1 : Int), (initState fs0).nextTimer,
          some false⟩),
        nextTimer := (initState fs0).nextTimer + 1,
        sent := (initState fs0).sent ++ [(addr, OutMsg.data 1 (readSlice contents 1))] }
    1 k f contents (initState fs0).nextTimer addr hfs hlen
    (by simp [upd, initState]) (le_refl 1) (by omega)
  rw [show (k - 1) + 2 = k + 1 from by omega] at hmain
  rcases hmain with ⟨hsent, ⟨t2, hreads⟩, hfs2, hwrites, herr⟩
  refine ⟨?_, by simp, readSlice_after_end contents k hlen, ?_, ⟨t2, ?_⟩⟩
  · rw [hsent]
    rw [show (k - 1) + 1 = k from by omega]
    rw [show (dataTrace addr contents 1 (k + 1))
        = (addr, OutMsg.data ((1 : Nat) : Int) (readSlice contents ((1 : Nat) : Int)))
          :: dataTrace addr contents 2 k from rfl]
    simp [initState]
  · intro n h1 h2
    by_cases hn : n = k + 1
    · subst hn
      rw [readSlice_after_end contents k hlen]
      simp [MAX_BYTES]
    · have hfull := readSlice_len_full contents k n hlen h1 (by omega)
      rw [hfull]
      simp [hn]
  · exact hreads

/-- Witness for C5: a one-block file (`k = 1`) served from `fsA`: the run
sends DATA(1) with the full block and DATA(2) empty. -/
theorem c5_read_exact_multiple_witness :
    (fsA "a" = some (List.replicate MAX_BYTES 3) ∧
     (List.replicate MAX_BYTES 3 : List Nat).length = MAX_BYTES * 1 ∧ (1 : Nat) ≤ 1) ∧
    ((runPkts 0 (initState fsA) (InPkt.rrq "a" "octet" :: ackSeqN 1 (1 + 1))).sent
        = dataTrace 0 (List.replicate MAX_BYTES 3) 1 (1 + 1) ∧
     (dataTrace 0 (List.replicate MAX_BYTES 3) 1 (1 + 1)).length = 1 + 1 ∧
     readSlice (List.replicate MAX_BYTES 3) ((1 + 1 : Nat) : Int) = [] ∧
     (∀ n : Nat, 1 ≤ n → n ≤ 1 + 1 →
       ((readSlice (List.replicate MAX_BYTES 3) (n : Int)).length < MAX_BYTES
         ↔ n = 1 + 1)) ∧
     (∃ t2, (runPkts 0 (initState fsA)
         (InPkt.rrq "a" "octet" :: ackSeqN 1 (1 + 1))).reads 0
       = some ⟨"a", ((1 + 1 : Nat) : Int), t2, some true⟩)) :=
  ⟨⟨rfl, by simp, le_refl 1⟩,
   c5_read_exact_multiple fsA "a" (List.replicate MAX_BYTES 3) 1 0 rfl
     (by simp) (le_refl 1)⟩
